import Mathlib

/-!
Verification development for `stdutil/std` (`std.go`)

Shallow embedding of the functions `In`, `ParseDate`, `If`, `Null`, `MapVal`, `Elem`,
`BuildSeries`, `SafeMapWrite`, `SafeMapRead`, `New`, `Val`, `IsNullOrEmpty`, `NonNullComp`,
`AnyToString` and `IsInterfaceNil` of `std.go`, followed by the theorems that settle the
claims about them.

Conventions of the embedding
* A Go `error` result is an `Option`: `none` is the `nil` error.
* A Go pointer `*T` is an `Option`: `none` is the `nil` pointer.
* A run-time panic is an explicit `Outcome.panicked`.
* Go strings are used only through equality and, in the model of `time.Parse`,
  through their characters.
-/

set_option autoImplicit false

namespace StdUtil

/-! ## Definitions -/

/-! ### `In` (std.go 268-275) -/

/-- The `In` of std.go: walks the list and answers `true` at the first element equal to `seek`. -/
def In {T : Type} [DecidableEq T] (seek : T) : List T → Bool
  | [] => false
  | li :: rest => if li = seek then true else In seek rest

/-! ### `ParseDate` (std.go 516-572) -/

/-- The error values `ParseDate` can hand back: its own three `fmt.Errorf` values and,
for an explicit layout, whatever error `time.Parse` produced. -/
inductive DateError (ε : Type) where
  /-- The `fmt.Errorf("invalid date or time input")` -/
  | invalidInput
  /-- The `fmt.Errorf("layout provided not supported")` -/
  | layoutNotSupported
  /-- The `fmt.Errorf("date parsing failed")` -/
  | parsingFailed
  /-- the error of `time.Parse`, returned as it is -/
  | ofParse (e : ε)
  deriving DecidableEq, Repr

/-- The slice literal `dlo` of `ParseDate`, in source order. -/
def dlo : List String :=
  [ -- Dashed full year
    "2006-01-02", "2006-02-01", "01-02-2006", "02-01-2006",
    -- Forward-slashed full year
    "2006/01/02", "2006/02/01", "01/02/2006", "02/01/2006",
    -- Forward-slashed single digit day and month
    "1/2/2006", "2/1/2006", "2006/1/2", "2006/2/1",
    -- 2-digit dashed year with full digit day and month
    "06-01-02", "06-02-01", "01-02-06", "02-01-06",
    -- 2-digit forward-slashed year with full digit day and month
    "06/01/02", "06/02/01", "01/02/06", "02/01/06" ]

/-- The loop `for _, lo := range dlo` of `ParseDate`. The second argument is the current
content of the variable `rtm`, which every call of `time.Parse` overwrites. -/
def ParseDate.tryEach {τ ε : Type} (parse : String → String → τ × Option ε) (dtText : String) :
    List String → τ → τ × String × Option (DateError ε)
  | [], rtm => (rtm, "", some DateError.parsingFailed)
  | lo :: rest, _ =>
    match parse lo dtText with
    | (rtm, some _) => ParseDate.tryEach parse dtText rest rtm
    | (rtm, none) => (rtm, lo, none)

/-- The `ParseDate` of std.go. `parse layout value` stands for `time.Parse(layout, value)` and
returns the pair (time, error); `default` is the zero `time.Time`; `dateLayout = none` is the
`nil` layout pointer. -/
def ParseDate {τ ε : Type} [Inhabited τ] (parse : String → String → τ × Option ε)
    (dtText : String) (dateLayout : Option String) : τ × String × Option (DateError ε) :=
  if dtText = "" then
    (default, "", some DateError.invalidInput)
  else
    match dateLayout with
    | some lo =>
      if In lo dlo = false then
        (default, lo, some DateError.layoutNotSupported)
      else
        ((parse lo dtText).1, lo, (parse lo dtText).2.map DateError.ofParse)
    | none => ParseDate.tryEach parse dtText dlo default

/-! ### Model of `time.Parse` on date-only layouts

`time.Parse` belongs to the Go standard library, not to this repository. `ParseDate` only ever
calls it with one of the twenty layouts of `dlo`, which are built from the reference-time
elements `2006`, `06`, `01`, `1`, `02`, `2` and the separators `-` and `/`. The model below
follows `time.Parse` (`nextStdChunk`, `getnum`, `atoi`, `skip`, `daysIn`) on that fragment;
every other character of a layout is taken as a literal, so layouts with further reference-time
elements (hours, names, zones) are outside of what it describes. Strings are read as lists of
characters; all characters the fragment accepts are ASCII. -/

/-- The value `time.Parse` builds for a date-only layout: `time.Date(year, month, day, 0, 0, 0, 0,
time.UTC)`. -/
structure Date where
  year : Int
  month : Int
  day : Int
  deriving DecidableEq, Repr

/-- The zero `time.Time` is January 1 of year 1, 00:00:00 UTC. -/
instance : Inhabited Date := ⟨⟨1, 1, 1⟩⟩

/-- The errors of the modelled fragment of `time.Parse`. -/
inductive ParseError where
  /-- The `errBad`: the value does not match the layout element -/
  | bad
  /-- The `month out of range` -/
  | monthOutOfRange
  /-- The `day out of range` -/
  | dayOutOfRange
  /-- The `extra text` after the last layout element -/
  | extraText
  deriving DecidableEq, Repr

/-- The layout elements of the fragment. -/
inductive Chunk where
  /-- The `stdLongYear`, written `2006` -/
  | longYear
  /-- The `stdYear`, written `06` -/
  | year
  /-- The `stdZeroMonth`, written `01` -/
  | zeroMonth
  /-- The `stdNumMonth`, written `1` -/
  | numMonth
  /-- The `stdZeroDay`, written `02` -/
  | zeroDay
  /-- The `stdDay`, written `2` -/
  | day
  /-- a character of the literal prefix between two elements -/
  | lit (c : Char)
  deriving DecidableEq, Repr

/-- Repeated `nextStdChunk` over a layout of the fragment. -/
def stdChunks : List Char → List Chunk
  | [] => []
  | '2' :: '0' :: '0' :: '6' :: rest => Chunk.longYear :: stdChunks rest
  | '0' :: '1' :: rest => Chunk.zeroMonth :: stdChunks rest
  | '0' :: '2' :: rest => Chunk.zeroDay :: stdChunks rest
  | '0' :: '6' :: rest => Chunk.year :: stdChunks rest
  | '1' :: rest => Chunk.numMonth :: stdChunks rest
  | '2' :: rest => Chunk.day :: stdChunks rest
  | c :: rest => Chunk.lit c :: stdChunks rest

/-- The `isDigit` of package time on one character: `'0' <= c && c <= '9'`. -/
def isDigit (c : Char) : Bool := decide ('0'.toNat ≤ c.toNat ∧ c.toNat ≤ '9'.toNat)

/-- The value `c - '0'` of a digit character. -/
def digitVal (c : Char) : Nat := c.toNat - '0'.toNat

/-- The `leadingInt` of package time: consumes the leading digits of `s`, with the accumulator
`x`; answers the number read and the remainder. -/
def leadingInt : List Char → Nat → Nat × List Char
  | [], x => (x, [])
  | c :: rest, x => if isDigit c then leadingInt rest (x * 10 + digitVal c) else (x, c :: rest)

/-- The `atoi` of package time: an optional sign, then digits up to the end of `s`. -/
def atoi (s : List Char) : Option Int :=
  let neg : Bool := match s with
    | c :: _ => decide (c = '-')
    | [] => false
  let s1 : List Char := match s with
    | c :: rest => if c = '-' ∨ c = '+' then rest else c :: rest
    | [] => []
  match leadingInt s1 0 with
  | (q, []) => some (if neg then -(q : Int) else (q : Int))
  | (_, _ :: _) => none

/-- The `getnum` of package time: one or two digits, exactly two when `fixed`. -/
def getnum (s : List Char) (fixed : Bool) : Option (Int × List Char) :=
  match s with
  | [] => none
  | c0 :: rest0 =>
    if isDigit c0 = false then none
    else
      match rest0 with
      | [] => if fixed then none else some ((digitVal c0 : Int), rest0)
      | c1 :: rest1 =>
        if isDigit c1 = false then
          if fixed then none else some ((digitVal c0 : Int), rest0)
        else some ((digitVal c0 : Int) * 10 + (digitVal c1 : Int), rest1)

/-- The variables `year`, `month`, `day` of `time.Parse`. -/
structure Fields where
  year : Int
  month : Int
  day : Int
  deriving DecidableEq, Repr

/-- The main loop of `time.Parse` over the elements of the layout, consuming `value`. -/
def parseChunks : List Chunk → List Char → Fields → Except ParseError Fields
  | [], value, f => if value = [] then Except.ok f else Except.error ParseError.extraText
  | Chunk.lit c :: rest, value, f =>
    match value with
    | v :: vs => if v = c then parseChunks rest vs f else Except.error ParseError.bad
    | [] => Except.error ParseError.bad
  | Chunk.year :: rest, value, f =>
    match value with
    | a :: b :: vs =>
      match atoi [a, b] with
      | some y => parseChunks rest vs { f with year := if 69 ≤ y then y + 1900 else y + 2000 }
      | none => Except.error ParseError.bad
    | _ => Except.error ParseError.bad
  | Chunk.longYear :: rest, value, f =>
    match value with
    | a :: b :: c :: d :: vs =>
      if isDigit a = false then Except.error ParseError.bad
      else
        match atoi [a, b, c, d] with
        | some y => parseChunks rest vs { f with year := y }
        | none => Except.error ParseError.bad
    | _ => Except.error ParseError.bad
  | Chunk.zeroMonth :: rest, value, f =>
    match getnum value true with
    | some (m, vs) =>
      if m ≤ 0 ∨ 12 < m then Except.error ParseError.monthOutOfRange
      else parseChunks rest vs { f with month := m }
    | none => Except.error ParseError.bad
  | Chunk.numMonth :: rest, value, f =>
    match getnum value false with
    | some (m, vs) =>
      if m ≤ 0 ∨ 12 < m then Except.error ParseError.monthOutOfRange
      else parseChunks rest vs { f with month := m }
    | none => Except.error ParseError.bad
  | Chunk.zeroDay :: rest, value, f =>
    match getnum value true with
    | some (d, vs) => parseChunks rest vs { f with day := d }
    | none => Except.error ParseError.bad
  | Chunk.day :: rest, value, f =>
    match getnum value false with
    | some (d, vs) => parseChunks rest vs { f with day := d }
    | none => Except.error ParseError.bad

/-- The `isLeap` of package time. -/
def isLeap (year : Int) : Bool :=
  decide (year % 4 = 0 ∧ (year % 100 ≠ 0 ∨ year % 400 = 0))

/-- The `daysIn` of package time. -/
def daysIn (month : Int) (year : Int) : Int :=
  if month = 2 ∧ isLeap year = true then 29
  else if month = 2 then 28
  else if month = 4 ∨ month = 6 ∨ month = 9 ∨ month = 11 then 30
  else 31

/-- The model of `time.Parse(layout, value)`: the pair (time, error). The variables start as
`year = 0`, `month = -1`, `day = -1`; a field the layout does not set gets January resp. day 1;
the day is validated against the month at the end; every failure returns the zero time. -/
def timeParse (layout value : String) : Date × Option ParseError :=
  match parseChunks (stdChunks layout.data) value.data ⟨0, -1, -1⟩ with
  | Except.error e => (default, some e)
  | Except.ok f =>
    let month : Int := if f.month < 0 then 1 else f.month
    let day : Int := if f.day < 0 then 1 else f.day
    if day < 1 ∨ daysIn month f.year < day then (default, some ParseError.dayOutOfRange)
    else (⟨f.year, month, day⟩, none)

/-! ### Values held in the Go interface `any`

The functions `If`, `Null` and `MapVal` take arguments of type `any` and inspect their dynamic
type. `GoVal` lists the dynamic values the three functions tell apart; `τ` is the
representation of `time.Time` and `δ` that of `decimal.Decimal`. A value of type `any` is an
`Option (GoVal τ δ)`, where `none` is the `nil` interface. -/

/-- The integer types named in the type switch of `If`. -/
inductive IntKind where
  | int8 | int16 | int32 | int64 | int | uint8 | uint16 | uint32 | uint64 | uint
  deriving DecidableEq, Repr

/-- The floating-point and complex types named in the type switch of `If`. -/
inductive FloatKind where
  | float32 | float64 | complex64 | complex128
  deriving DecidableEq, Repr

/-- The kinds map, slice and func, whose values are handles that may be nil. -/
inductive HandleKind where
  | map | slice | func
  deriving DecidableEq, Repr

/-- The dynamic types of the values in `GoVal`. There is no interface type among them. -/
inductive GoType where
  | string
  | int (k : IntKind)
  | float (k : FloatKind)
  | bool
  | time
  | decimal
  | ptr (elem : GoType)
  | handle (k : HandleKind)
  | struct (name : String)
  deriving DecidableEq, Repr

/-- A floating-point or complex value, as far as std.go can observe it: positive zero,
negative zero, or a value that is not zero (with its bit pattern). -/
inductive FloatVal where
  | posZero
  | negZero
  | nonZero (bits : Nat)
  deriving DecidableEq, Repr

/-- The dynamic values. A pointer is either nil with its element type or points to a value;
a map, slice or func is a handle of which only nil-ness is kept; `struct` stands for a value
of any other type. -/
inductive GoVal (τ δ : Type) where
  | str (s : String)
  | int (k : IntKind) (n : Int)
  | float (k : FloatKind) (x : FloatVal)
  | bool (b : Bool)
  | time (t : τ)
  | decimal (d : δ)
  | nilPtr (elem : GoType)
  | ptrTo (target : GoVal τ δ)
  | handle (k : HandleKind) (isNil : Bool)
  | struct (name : String)
  deriving DecidableEq, Repr

/-- What a call does: it returns a value or it panics. -/
inductive Outcome (α : Type) where
  | returned (a : α)
  | panicked
  deriving DecidableEq, Repr

section GoValues

variable {τ δ : Type}

/-- The dynamic type of a value. -/
def GoVal.typeOf : GoVal τ δ → GoType
  | GoVal.str _ => GoType.string
  | GoVal.int k _ => GoType.int k
  | GoVal.float k _ => GoType.float k
  | GoVal.bool _ => GoType.bool
  | GoVal.time _ => GoType.time
  | GoVal.decimal _ => GoType.decimal
  | GoVal.nilPtr e => GoType.ptr e
  | GoVal.ptrTo v => GoType.ptr v.typeOf
  | GoVal.handle k _ => GoType.handle k
  | GoVal.struct n => GoType.struct n

/-- The zero value `var r T` of a type. -/
def zeroVal [Inhabited τ] [Inhabited δ] : GoType → GoVal τ δ
  | GoType.string => GoVal.str ""
  | GoType.int k => GoVal.int k 0
  | GoType.float k => GoVal.float k FloatVal.posZero
  | GoType.bool => GoVal.bool false
  | GoType.time => GoVal.time default
  | GoType.decimal => GoVal.decimal default
  | GoType.ptr e => GoVal.nilPtr e
  | GoType.handle k => GoVal.handle k true
  | GoType.struct n => GoVal.struct n

/-- The comma-ok type assertion `x.(T)` for a type `T` that is not an interface: it succeeds
when `x` is not the nil interface and its dynamic type is `T`. -/
def assertType (x : Option (GoVal τ δ)) (T : GoType) : Option (GoVal τ δ) :=
  match x with
  | none => none
  | some v => if v.typeOf = T then some v else none

/-- The one-result type assertion `x.(T)`, which panics where the comma-ok form answers
`false`. -/
def mustAssert (x : Option (GoVal τ δ)) (T : GoType) : Outcome (GoVal τ δ) :=
  match assertType x T with
  | some v => Outcome.returned v
  | none => Outcome.panicked

/-- The comparison `t == 0` of an interface value `t` with the untyped constant `0`: the
constant takes its default type `int`, and two interface values are equal when their dynamic
types are identical and their values equal. -/
def eqIntConst (t : GoVal τ δ) (c : Int) : Bool :=
  match t with
  | GoVal.int IntKind.int n => decide (n = c)
  | _ => false

/-- The method `reflect.Value.IsZero` on a number (Go 1.22 and later, where both zeros of a
floating-point type count as zero). -/
def FloatVal.isZero : FloatVal → Bool
  | FloatVal.posZero => true
  | FloatVal.negZero => true
  | FloatVal.nonZero _ => false

/-! ### `If` (std.go 218-257) -/

/-- The function `If` of std.go. The type switch binds `t`; in the two clauses that list
several types `t` keeps the interface type of `subject`, so `t == 0 || t == -0` is
`eqIntConst t 0 || eqIntConst t (-0)`. In the clause of the numeric pointers
`reflect.ValueOf(t).Elem()` is invalid for a nil pointer and otherwise `IsZero` looks at the
number pointed to. The clause `case *bool` evaluates `*t` without a nil test. -/
def If {T : Type} (subject : Option (GoVal τ δ)) (truthy falsey : T) : Outcome T :=
  match subject with
  | none => Outcome.returned falsey
  | some (GoVal.str t) =>
    if t = "" then Outcome.returned falsey else Outcome.returned truthy
  | some (GoVal.nilPtr GoType.string) => Outcome.returned falsey
  | some (GoVal.ptrTo (GoVal.str s)) =>
    if s = "" then Outcome.returned falsey else Outcome.returned truthy
  | some (GoVal.int k n) =>
    if eqIntConst (GoVal.int k n : GoVal τ δ) 0 || eqIntConst (GoVal.int k n : GoVal τ δ) (-0)
    then Outcome.returned falsey else Outcome.returned truthy
  | some (GoVal.float k x) =>
    if eqIntConst (GoVal.float k x : GoVal τ δ) 0 ||
        eqIntConst (GoVal.float k x : GoVal τ δ) (-0)
    then Outcome.returned falsey else Outcome.returned truthy
  | some (GoVal.nilPtr (GoType.int _)) => Outcome.returned falsey
  | some (GoVal.nilPtr (GoType.float _)) => Outcome.returned falsey
  | some (GoVal.ptrTo (GoVal.int _ n)) =>
    if n = 0 then Outcome.returned falsey else Outcome.returned truthy
  | some (GoVal.ptrTo (GoVal.float _ x)) =>
    if x.isZero then Outcome.returned falsey else Outcome.returned truthy
  | some (GoVal.bool t) =>
    if t = false then Outcome.returned falsey else Outcome.returned truthy
  | some (GoVal.nilPtr GoType.bool) => Outcome.panicked
  | some (GoVal.ptrTo (GoVal.bool b)) =>
    if b = false then Outcome.returned falsey else Outcome.returned truthy
  | some _ => Outcome.returned truthy

/-! ### `Null` (std.go 447-470) -/

/-- The test `k == reflect.Map || k == reflect.Func || k == reflect.Ptr || k == reflect.Slice
|| k == reflect.Interface` on the kind of a dynamic type. -/
def isRefKind : GoType → Bool
  | GoType.ptr _ => true
  | GoType.handle _ => true
  | _ => false

/-- The method `reflect.Value.IsNil` (equal to `IsZero` on these kinds) for a value of a
reference kind. -/
def GoVal.isNil : GoVal τ δ → Bool
  | GoVal.nilPtr _ => true
  | GoVal.handle _ n => n
  | _ => false

/-- The expression `vo.Elem().Interface()`: the value a non-nil pointer points to; `Elem`
panics on a map, slice or func. -/
def GoVal.elem : GoVal τ δ → Outcome (Option (GoVal τ δ))
  | GoVal.ptrTo v => Outcome.returned (some v)
  | _ => Outcome.panicked

/-- The function `Null` of std.go, for a type argument `T` that is not an interface. -/
def Null [Inhabited τ] [Inhabited δ] (T : GoType) (testValue defaultValue : Option (GoVal τ δ)) :
    Outcome (GoVal τ δ) :=
  let def_ : GoVal τ δ := zeroVal T
  let defaultValue : Option (GoVal τ δ) :=
    match defaultValue with
    | none => some def_
    | some d => some d
  match testValue with
  | none => mustAssert defaultValue T
  | some vo =>
    if isRefKind vo.typeOf then
      if vo.isNil then mustAssert defaultValue T
      else
        match vo.elem with
        | Outcome.returned ifv => mustAssert ifv T
        | Outcome.panicked => Outcome.panicked
    else Outcome.returned def_

/-! ### `MapVal` (std.go 353-397) -/

/-- The function `MapVal` of std.go. `parse` is `time.Parse` and `newFromString` is
`decimal.NewFromString` (`none` when it returns an error); `kvmap = none` is the nil pointer
and a map is its lookup function, which answers `none` for a key that is not present. -/
def MapVal {ε : Type} [Inhabited τ] (parse : String → String → τ × Option ε)
    (newFromString : String → Option δ) (T : GoType)
    (kvmap : Option (String → Option (Option (GoVal τ δ)))) (key : String)
    (dateLayout : List String) : Option (GoVal τ δ) :=
  match kvmap with
  | none => none
  | some m =>
    match m key with
    | none => none
    | some miv =>
      match assertType miv T with
      | some mv => some mv
      | none =>
        match T with
        | GoType.time =>
          match miv with
          | some (GoVal.str s) =>
            let dlo : Option String := dateLayout.head?
            match ParseDate parse s dlo with
            | (_, _, some _) => none
            | (v, _, none) => some (GoVal.time v)
          | _ => none
        | GoType.decimal =>
          match miv with
          | some (GoVal.str s) =>
            match newFromString s with
            | none => none
            | some v => some (GoVal.decimal v)
          | _ => none
        | _ => none

end GoValues

/-! ### `Elem` (std.go 174-194) -/

/-- The index expression `a[i]` on a slice, with its run-time bounds check. -/
def indexSlice {T : Type} (a : List T) (i : Int) : Outcome T :=
  if i < 0 then Outcome.panicked
  else
    match a.get? i.toNat with
    | some v => Outcome.returned v
    | none => Outcome.panicked

/-- The function `Elem` of std.go. `array = none` is the nil pointer; `flag` is the variable
`exists` points to (`none` for a nil pointer), and the first component of the result is that
variable after the call. -/
def Elem {T : Type} [Inhabited T] (array : Option (List T)) (index : Int) (flag : Option Bool) :
    Option Bool × Outcome T :=
  let result : T := default
  let flag1 : Option Bool := flag.map (fun _ => false)
  match array with
  | none => (flag1, Outcome.returned result)
  | some a =>
    let arrl : Int := a.length
    if arrl = 0 then (flag1, Outcome.returned result)
    else
      let arrl : Int := arrl - 1
      if arrl ≥ index then (flag1.map (fun _ => true), indexSlice a index)
      else (flag1, Outcome.returned result)

/-! ### `BuildSeries` (std.go 152-160)

`BuildSeries` builds a format string and hands it to `fmt.Sprintf`. The functions
`strconv.Itoa` and `fmt.Sprintf` belong to the Go standard library; they are modelled here on
what `BuildSeries` can pass to them: the verbs `s` and `d`, the flags `0` and `-` and a decimal
width. The flags `#`, `+` and space, precisions, argument indexes and `*` widths do not occur
in these formats and are not modelled. -/

/-- The options of a series (std.go 22-26). `Length` is a Go `int`. -/
structure SeriesOptions where
  Prefix : String
  Suffix : String
  Length : Int
  deriving DecidableEq, Repr

/-- The character of a decimal digit. -/
def digitChar (d : Nat) : Char := Char.ofNat ('0'.toNat + d)

/-- The decimal digits of `n`, most significant first, by repeated division; `fuel` bounds
the number of divisions and `n + 1` is always enough. -/
def natDigits : Nat → Nat → List Char
  | 0, _ => []
  | fuel + 1, n =>
    if n < 10 then [digitChar n] else natDigits fuel (n / 10) ++ [digitChar (n % 10)]

/-- The function `strconv.FormatUint(n, 10)`. -/
def FormatUint (n : Nat) : List Char := natDigits (n + 1) n

/-- The function `strconv.Itoa`, which is also `strconv.FormatInt(n, 10)`. -/
def Itoa (n : Int) : List Char :=
  if n < 0 then '-' :: FormatUint n.natAbs else FormatUint n.natAbs

/-- An operand of `fmt.Sprintf`: a `string` or an `int`. -/
inductive FmtArg where
  | str (s : String)
  | int (n : Int)
  deriving DecidableEq, Repr

/-- Where `doPrintf` stands in the format: in plain text, in the flags after a `%`, or in
the digits of a width (which is then present). The fields are `fmt.zero`, `fmt.minus` and
`fmt.wid`. -/
inductive FmtState where
  | text
  | flags (zero minus : Bool)
  | width (zero minus : Bool) (wid : Nat)
  deriving DecidableEq, Repr

/-- The method `fmt.pad` with `fmt.writePadding`: nothing is added without a width or with
width 0; else the text is filled up to the width, on the left, or on the right when `minus`
is set, with zeros when `zero` is set and with spaces otherwise. -/
def pad (zero minus : Bool) (wid : Option Nat) (b : List Char) : List Char :=
  match wid with
  | none => b
  | some w =>
    if w = 0 then b
    else
      let padding : List Char := List.replicate (w - b.length) (if zero then '0' else ' ')
      if minus then b ++ padding else padding ++ b

/-- The method `fmt.fmtInteger` for the verb `d`: with the flag `0` and a width the digits
are preceded by zeros up to the width (less one for a sign), then comes the sign, and the
result is padded with `fmt.zero` switched off. -/
def fmtInteger (zero minus : Bool) (wid : Option Nat) (n : Int) : List Char :=
  let negative : Bool := decide (n < 0)
  let digits : List Char := FormatUint n.natAbs
  let prec : Nat :=
    match wid with
    | some w => if zero then (if negative then w - 1 else w) else 0
    | none => 0
  let buf : List Char := List.replicate (prec - digits.length) '0' ++ digits
  let buf : List Char := if negative then '-' :: buf else buf
  pad false minus wid buf

/-- The text of an operand under the verb `v`. -/
def FmtArg.value : FmtArg → List Char
  | FmtArg.str s => s.data
  | FmtArg.int n => Itoa n

/-- The name of the type of an operand. -/
def FmtArg.typeName : FmtArg → List Char
  | FmtArg.str _ => "string".data
  | FmtArg.int _ => "int".data

/-- The method `printArg` for one verb: `s` prints a string and `d` an integer; without an
operand the text is `%!verb(MISSING)` and with an operand of another type or another verb it
is `%!verb(type=value)`. -/
def printArg (verb : Char) (zero minus : Bool) (wid : Option Nat) :
    Option FmtArg → List Char
  | none => '%' :: '!' :: verb :: "(MISSING)".data
  | some (FmtArg.str s) =>
    if verb = 's' ∨ verb = 'v' then pad zero minus wid s.data
    else '%' :: '!' :: verb :: ("(string=".data ++ s.data ++ [')'])
  | some (FmtArg.int n) =>
    if verb = 'd' ∨ verb = 'v' then fmtInteger zero minus wid n
    else '%' :: '!' :: verb :: ("(int=".data ++ Itoa n ++ [')'])

/-- The text for operands left over at the end of the format: `%!(EXTRA type=value, ...)`. -/
def extraArgs : List FmtArg → List Char
  | [] => []
  | a :: rest =>
    "%!(EXTRA ".data ++
      (String.intercalate ", "
        ((a :: rest).map (fun x => String.mk (x.typeName ++ ['='] ++ x.value)))).data ++ [')']

/-- The test `tooLarge` of package fmt on a width read so far. -/
def tooLarge (x : Nat) : Bool := decide (x > 1000000)

/-- The loop of `doPrintf` over the characters of the format. In the flags `0` sets
`zero` unless `minus` is set and `-` sets `minus` and clears `zero`; a digit other than `0`
starts the width. `parsenum` gives up on a width when the number read before a further digit
is too large, and the rest of the format is then dropped with the text `%!(NOVERB)`, as it is
when the format ends inside a directive. -/
def sprintfAux : List Char → FmtState → List FmtArg → List Char
  | [], FmtState.text, args => extraArgs args
  | [], _, args => "%!(NOVERB)".data ++ extraArgs args
  | c :: rest, FmtState.text, args =>
    if c = '%' then sprintfAux rest (FmtState.flags false false) args
    else c :: sprintfAux rest FmtState.text args
  | c :: rest, FmtState.flags zero minus, args =>
    if c = '0' then sprintfAux rest (FmtState.flags (!minus) minus) args
    else if c = '-' then sprintfAux rest (FmtState.flags false true) args
    else if isDigit c then sprintfAux rest (FmtState.width zero minus (digitVal c)) args
    else if c = '%' then '%' :: sprintfAux rest FmtState.text args
    else printArg c zero minus none args.head? ++ sprintfAux rest FmtState.text args.tail
  | c :: rest, FmtState.width zero minus wid, args =>
    if isDigit c then
      if tooLarge wid then "%!(NOVERB)".data ++ extraArgs args
      else sprintfAux rest (FmtState.width zero minus (wid * 10 + digitVal c)) args
    else if c = '%' then '%' :: sprintfAux rest FmtState.text args
    else printArg c zero minus (some wid) args.head? ++ sprintfAux rest FmtState.text args.tail

/-- The function `fmt.Sprintf` on a format and its operands. -/
def Sprintf (format : String) (args : List FmtArg) : String :=
  String.mk (sprintfAux format.data FmtState.text args)

/-- The function `BuildSeries` of std.go. `len` of a Go string is its number of bytes. -/
def BuildSeries (series : Int) (opt : SeriesOptions) : String :=
  if opt.Length > 0 then
    let diff : Int := opt.Length - ((opt.Prefix.utf8ByteSize : Int) + (opt.Suffix.utf8ByteSize : Int))
    let ds : String := "%0" ++ String.mk (Itoa diff) ++ "d"
    Sprintf ("%s" ++ ds ++ "%s") [FmtArg.str opt.Prefix, FmtArg.int series, FmtArg.str opt.Suffix]
  else
    Sprintf "%s%d%s" [FmtArg.str opt.Prefix, FmtArg.int series, FmtArg.str opt.Suffix]

/-! ### `SafeMapWrite` and `SafeMapRead` (std.go 583-615)

The two functions are modelled for one caller at a time. A map is its lookup function; the
pointer to the map, the map itself and the pointer to the guard may each be nil. Both
functions start with `defer func() { recover() }()`: a panic in the body is stopped there and
the function then returns the zero value of its result, since the `return` statement has not
been reached. -/

/-- The state of a `sync.RWMutex` as `TryLock` and `Unlock` see it: free, locked for
writing, or locked by a number of readers. -/
inductive RWMutex where
  | free
  | locked
  | rlocked (readers : Nat)
  deriving DecidableEq, Repr

/-- The method `TryLock`: it takes the lock when the guard is free and answers whether it
did. -/
def RWMutex.TryLock : RWMutex → Bool × RWMutex
  | RWMutex.free => (true, RWMutex.locked)
  | RWMutex.locked => (false, RWMutex.locked)
  | RWMutex.rlocked n => (false, RWMutex.rlocked n)

/-- The method `Unlock`, called by the caller that holds the lock for writing. -/
def RWMutex.Unlock : RWMutex → RWMutex
  | RWMutex.locked => RWMutex.free
  | m => m

/-- The assignment `m[key] = value` on a map. -/
def mapAssign {T : Type} (m : String → Option T) (key : String) (value : T) :
    String → Option T :=
  fun k => if k = key then some value else m k

/-- The function `SafeMapWrite` of std.go. The result holds the pointer to the map, the
guard and the boolean returned. The call `rw.TryLock()` on a nil guard panics, and so does
the assignment through a nil pointer or into a nil map, after which the deferred `Unlock`
runs; in these cases the result is `false`. -/
def SafeMapWrite {T : Type} (ptrMap : Option (Option (String → Option T))) (key : String)
    (value : T) (rw : Option RWMutex) :
    Option (Option (String → Option T)) × Option RWMutex × Bool :=
  match rw with
  | none => (ptrMap, none, false)
  | some g =>
    match g.TryLock with
    | (true, g1) =>
      match ptrMap with
      | some (some m) => (some (some (mapAssign m key value)), some g1.Unlock, true)
      | some none => (some none, some g1.Unlock, false)
      | none => (none, some g1.Unlock, false)
    | (false, g1) => (ptrMap, some g1, true)

/-- The function `SafeMapRead` of std.go. The result holds the guard and the value
returned. Reading a nil map gives the zero value, and so does a key that is not present. -/
def SafeMapRead {T : Type} [Inhabited T] (ptrMap : Option (Option (String → Option T)))
    (key : String) (rw : Option RWMutex) : Option RWMutex × T :=
  match rw with
  | none => (none, default)
  | some g =>
    match g.TryLock with
    | (true, g1) =>
      match ptrMap with
      | some (some m) => (some g1.Unlock, (m key).getD default)
      | some none => (some g1.Unlock, default)
      | none => (some g1.Unlock, default)
    | (false, g1) => (some g1, default)

/-! ### `getZero`, `New`, `Val`, `IsNullOrEmpty` (std.go 306-308, 408-412, 660-670)

The type parameter `T` is a Lean type whose `default` is the zero value and whose equality is
the comparison `==` of Go. That is the case for the strings, the integer types, `bool`, and
the structs `time.Time` and `decimal.Decimal` (compared field by field); it is not the case
for `float32` and `float64`, whose `==` is the comparison of IEEE 754. -/

/-- The function `getZero` of std.go: `var r T; return r`. -/
def getZero {T : Type} [Inhabited T] : T := default

/-- The function `New` of std.go: a pointer to a new variable that holds `value`. -/
def New {T : Type} (value : T) : Option T := some value

/-- The function `Val` of std.go. -/
def Val {T : Type} [Inhabited T] (value : Option T) : T :=
  match value with
  | none => getZero
  | some v => v

/-- The function `IsNullOrEmpty` of std.go: `value == nil || *value == getZero[T]()`. -/
def IsNullOrEmpty {T : Type} [Inhabited T] [DecidableEq T] (value : Option T) : Bool :=
  match value with
  | none => true
  | some v => decide (v = getZero)

/-! ### `NonNullComp` (std.go 427-435)

`NonNullComp` compares the two values pointed to with the operator `==` of Go. What `==`
does depends on the type: on integers, strings and `bool` it is equality of the values; on a
struct it compares field by field, and a field that is a pointer by the address it holds.
The comparison is therefore given per type, by an instance of `GoComparable`. The struct
`decimal.Decimal` belongs to the library shopspring/decimal and is modelled by its two
fields. No instance is given for `float32` and `float64`, whose `==` is that of IEEE 754. -/

/-- The comparison `==` of Go on the values of a comparable type. -/
class GoComparable (T : Type) where
  goEq : T → T → Bool

/-- On `int` and the other integer types `==` is equality of the numbers. -/
instance : GoComparable Int := ⟨fun a b => decide (a = b)⟩

/-- On `string` the operator `==` is equality of the texts. -/
instance : GoComparable String := ⟨fun a b => decide (a = b)⟩

/-- On `bool` the operator `==` is equality of the truth values. -/
instance : GoComparable Bool := ⟨fun a b => decide (a = b)⟩

/-- A pointer `*big.Int` that is not nil: the address it holds and the integer stored at
that address. -/
structure BigIntPtr where
  addr : Nat
  val : Int
  deriving DecidableEq, Repr

/-- The struct `decimal.Decimal`, declared as `struct { value *big.Int; exp int32 }`; it
stands for the number `value * 10 ^ exp`, and `value = none` is the nil pointer of the zero
value. -/
structure Decimal where
  value : Option BigIntPtr
  exp : Int
  deriving DecidableEq, Repr

/-- The comparison `==` of two pointers: both nil, or both holding the same address. -/
def BigIntPtr.ptrEq : Option BigIntPtr → Option BigIntPtr → Bool
  | none, none => true
  | some p, some q => decide (p.addr = q.addr)
  | _, _ => false

/-- On `decimal.Decimal` the operator `==` compares the two fields: the pointers `value`
by their addresses and the exponents as numbers. -/
instance : GoComparable Decimal :=
  ⟨fun a b => BigIntPtr.ptrEq a.value b.value && decide (a.exp = b.exp)⟩

/-- The function `NonNullComp` of std.go; `GoComparable.goEq a b` is `*param1 == *param2`. -/
def NonNullComp {T : Type} [GoComparable T] (param1 param2 : Option T) : Int :=
  match param1, param2 with
  | some a, some b => if GoComparable.goEq a b = true then 0 else 1
  | _, _ => -1

section MoreGoValues

variable {τ δ : Type}

/-! ### `AnyToString` (std.go 30-149) -/

/-- The function `AnyToString` of std.go. `fmtFloat` stands for `fmt.Sprintf("%f", t)` on a
value of a floating-point type and `fmtTime` for `t.Format(time.RFC3339)`; the integers go
through `strconv.FormatInt` or `strconv.FormatUint` in base 10. A type without a clause in
the switch leaves the result empty. -/
def AnyToString [Inhabited τ] (fmtFloat : FloatKind → FloatVal → String) (fmtTime : τ → String)
    (value : Option (GoVal τ δ)) : String :=
  match value with
  | none => ""
  | some (GoVal.str t) => t
  | some (GoVal.int _ t) => String.mk (Itoa t)
  | some (GoVal.float FloatKind.float32 t) => fmtFloat FloatKind.float32 t
  | some (GoVal.float FloatKind.float64 t) => fmtFloat FloatKind.float64 t
  | some (GoVal.bool t) => if t then "true" else "false"
  | some (GoVal.time t) => "\x27" ++ fmtTime t ++ "\x27"
  | some (GoVal.nilPtr GoType.string) => ""
  | some (GoVal.ptrTo (GoVal.str t)) => t
  | some (GoVal.nilPtr (GoType.int _)) => "0"
  | some (GoVal.ptrTo (GoVal.int _ t)) => String.mk (Itoa t)
  | some (GoVal.nilPtr (GoType.float FloatKind.float32)) => "0"
  | some (GoVal.ptrTo (GoVal.float FloatKind.float32 t)) => fmtFloat FloatKind.float32 t
  | some (GoVal.nilPtr (GoType.float FloatKind.float64)) => "0"
  | some (GoVal.ptrTo (GoVal.float FloatKind.float64 t)) => fmtFloat FloatKind.float64 t
  | some (GoVal.nilPtr GoType.bool) => "false"
  | some (GoVal.ptrTo (GoVal.bool t)) => if t = false then "false" else "true"
  | some (GoVal.nilPtr GoType.time) => "\x27" ++ fmtTime default ++ "\x27"
  | some (GoVal.ptrTo (GoVal.time t)) => "\x27" ++ fmtTime t ++ "\x27"
  | some _ => ""

/-- The types that `AnyToString` accepts behind a pointer: string, the integer types,
`float32`, `float64`, `bool` and `time.Time`. -/
def isPointee : GoType → Bool
  | GoType.string => true
  | GoType.int _ => true
  | GoType.float FloatKind.float32 => true
  | GoType.float FloatKind.float64 => true
  | GoType.bool => true
  | GoType.time => true
  | _ => false

/-! ### `IsInterfaceNil` (std.go 322-336) -/

/-- The function `IsInterfaceNil` of std.go. `reflect.ValueOf` of an interface that is not
nil is valid; the kinds pointer, slice, map, func and interface are those of `isRefKind`,
and `IsNil` is asked only for them. -/
def IsInterfaceNil (i : Option (GoVal τ δ)) : Bool :=
  match i with
  | none => true
  | some iv => if isRefKind iv.typeOf then iv.isNil else false

end MoreGoValues

/-! ## Theorems -/

section ParseDateLemmas

variable {τ ε : Type}

theorem In_eq_true_iff {T : Type} [DecidableEq T] (seek : T) (list : List T) :
    In seek list = true ↔ seek ∈ list := by
  induction list with
  | nil => simp [In]
  | cons li rest ih =>
    by_cases h : li = seek
    · simp [In, h]
    · have h2 : ¬ seek = li := fun e => h e.symm
      simp [In, h, h2, ih]

theorem tryEach_err_none_iff (parse : String → String → τ × Option ε) (dtText : String)
    (los : List String) (rtm : τ) :
    (ParseDate.tryEach parse dtText los rtm).2.2 = none ↔
      ∃ lo ∈ los, (parse lo dtText).2 = none := by
  induction los generalizing rtm with
  | nil => simp [ParseDate.tryEach]
  | cons lo rest ih =>
    rcases hp : parse lo dtText with ⟨t, e⟩
    cases e with
    | none => simp [ParseDate.tryEach, hp]
    | some e => simp [ParseDate.tryEach, hp, ih]

theorem tryEach_first (parse : String → String → τ × Option ε) (dtText : String)
    (pre : List String) (lo : String) (post : List String) (rtm : τ)
    (hpre : ∀ l ∈ pre, (parse l dtText).2 ≠ none) (hlo : (parse lo dtText).2 = none) :
    ParseDate.tryEach parse dtText (pre ++ lo :: post) rtm = ((parse lo dtText).1, lo, none) := by
  induction pre generalizing rtm with
  | nil =>
    rcases hp : parse lo dtText with ⟨t, e⟩
    rw [hp] at hlo
    simp only at hlo
    subst hlo
    simp [ParseDate.tryEach, hp]
  | cons l rest ih =>
    have hl := hpre l (List.mem_cons_self _ _)
    rcases hp : parse l dtText with ⟨t, e⟩
    rw [hp] at hl
    cases e with
    | none => exact absurd rfl hl
    | some e =>
      have := ih t (fun l2 h2 => hpre l2 (List.mem_cons_of_mem _ h2))
      simpa [ParseDate.tryEach, hp] using this

theorem tryEach_all_fail (parse : String → String → τ × Option ε) (dtText : String)
    (los : List String) (rtm : τ) (h : ∀ l ∈ los, (parse l dtText).2 ≠ none) :
    (ParseDate.tryEach parse dtText los rtm).2 = ("", some DateError.parsingFailed) := by
  induction los generalizing rtm with
  | nil => simp [ParseDate.tryEach]
  | cons l rest ih =>
    have hl := h l (List.mem_cons_self _ _)
    rcases hp : parse l dtText with ⟨t, e⟩
    rw [hp] at hl
    cases e with
    | none => exact absurd rfl hl
    | some e =>
      have := ih t (fun l2 h2 => h l2 (List.mem_cons_of_mem _ h2))
      simpa [ParseDate.tryEach, hp] using this

end ParseDateLemmas

section TimeParseLemmas

theorem isDigit_ne_minus {c : Char} (h : isDigit c = true) : c ≠ '-' := by
  intro e; subst e; revert h; decide

theorem isDigit_ne_plus {c : Char} (h : isDigit c = true) : c ≠ '+' := by
  intro e; subst e; revert h; decide

theorem daysIn_ge (month year : Int) : 28 ≤ daysIn month year := by
  unfold daysIn
  split_ifs <;> omega

/-- A value that starts with two digits and a dash does not match a layout that starts with
the four-digit year. -/
theorem parseChunks_longYear_dash (rest : List Chunk) (a1 a2 c : Char) (vs : List Char)
    (f : Fields) (h1 : isDigit a1 = true) (h2 : isDigit a2 = true) :
    parseChunks (Chunk.longYear :: rest) (a1 :: a2 :: '-' :: c :: vs) f
      = Except.error ParseError.bad := by
  have hm : isDigit '-' = false := by decide
  simp [parseChunks, atoi, leadingInt, h1, h2, hm, isDigit_ne_minus h1, isDigit_ne_plus h1]

end TimeParseLemmas

/-- C1: for a non-empty text and no explicit layout, with the single-layout parser given as
the function parse: (1) the layouts are the twenty of the fixed list, in this order;
(2) ParseDate returns no error exactly when some layout of the list parses the text; (3) when
a layout parses the text and no layout before it in the list does, ParseDate returns that
layout together with the time of that parse and no error. -/
theorem ParseDate_no_layout_first_match {τ ε : Type} [Inhabited τ]
    (parse : String → String → τ × Option ε) (dtText : String) (h : dtText ≠ "") :
    dlo = ["2006-01-02", "2006-02-01", "01-02-2006", "02-01-2006",
           "2006/01/02", "2006/02/01", "01/02/2006", "02/01/2006",
           "1/2/2006", "2/1/2006", "2006/1/2", "2006/2/1",
           "06-01-02", "06-02-01", "01-02-06", "02-01-06",
           "06/01/02", "06/02/01", "01/02/06", "02/01/06"] ∧
    ((ParseDate parse dtText none).2.2 = none ↔ ∃ lo ∈ dlo, (parse lo dtText).2 = none) ∧
    (∀ (pre : List String) (lo : String) (post : List String), dlo = pre ++ lo :: post →
      (∀ l ∈ pre, (parse l dtText).2 ≠ none) → (parse lo dtText).2 = none →
      ParseDate parse dtText none = ((parse lo dtText).1, lo, none)) := by
  refine ⟨rfl, ?_, ?_⟩
  · rw [ParseDate, if_neg h]
    exact tryEach_err_none_iff parse dtText dlo default
  · intro pre lo post hsplit hpre hlo
    rw [ParseDate, if_neg h]
    show ParseDate.tryEach parse dtText dlo default = _
    rw [hsplit]
    exact tryEach_first parse dtText pre lo post default hpre hlo

/-- Witness of C1 at the text "2024-03-05" with the standard parser on date layouts: the
first layout parses it, and ParseDate returns March 5, 2024 with the layout "2006-01-02". -/
theorem ParseDate_no_layout_first_match_witness :
    "2024-03-05" ≠ "" ∧
    ParseDate timeParse "2024-03-05" none = (⟨2024, 3, 5⟩, "2006-01-02", none) :=
  ⟨by decide,
   (ParseDate_no_layout_first_match timeParse "2024-03-05" (by decide)).2.2
     [] "2006-01-02" (dlo.drop 1) (by decide) (by simp) (by decide)⟩

/-- C2: for every text AA-BB-YYYY of digits with AA and BB between 01 and 12, ParseDate with
no explicit layout (and the standard parser on date layouts) returns the layout "01-02-2006",
month AA, day BB and year YYYY, with no error; the layout is not the day-first "02-01-2006".
ParseDate is a function of its arguments, so every call gives this same result. -/
theorem ParseDate_dashed_month_first (a1 a2 b1 b2 y1 y2 y3 y4 : Char)
    (ha1 : isDigit a1 = true) (ha2 : isDigit a2 = true)
    (hb1 : isDigit b1 = true) (hb2 : isDigit b2 = true)
    (hy1 : isDigit y1 = true) (hy2 : isDigit y2 = true)
    (hy3 : isDigit y3 = true) (hy4 : isDigit y4 = true)
    (ha : 1 ≤ digitVal a1 * 10 + digitVal a2 ∧ digitVal a1 * 10 + digitVal a2 ≤ 12)
    (hb : 1 ≤ digitVal b1 * 10 + digitVal b2 ∧ digitVal b1 * 10 + digitVal b2 ≤ 12) :
    ParseDate timeParse (String.mk [a1, a2, '-', b1, b2, '-', y1, y2, y3, y4]) none
      = (⟨(digitVal y1 * 1000 + digitVal y2 * 100 + digitVal y3 * 10 + digitVal y4 : Nat),
          (digitVal a1 * 10 + digitVal a2 : Nat), (digitVal b1 * 10 + digitVal b2 : Nat)⟩,
         "01-02-2006", none) ∧
    (ParseDate timeParse (String.mk [a1, a2, '-', b1, b2, '-', y1, y2, y3, y4]) none).2.1
      ≠ "02-01-2006" := by
  suffices hmain : ParseDate timeParse (String.mk [a1, a2, '-', b1, b2, '-', y1, y2, y3, y4]) none
      = (⟨(digitVal y1 * 1000 + digitVal y2 * 100 + digitVal y3 * 10 + digitVal y4 : Nat),
          (digitVal a1 * 10 + digitVal a2 : Nat), (digitVal b1 * 10 + digitVal b2 : Nat)⟩,
         "01-02-2006", none) by
    refine ⟨hmain, ?_⟩
    rw [hmain]
    show "01-02-2006" ≠ "02-01-2006"
    decide
  have hne : String.mk [a1, a2, '-', b1, b2, '-', y1, y2, y3, y4] ≠ "" := by
    intro h
    have := congrArg String.length h
    simp [String.length] at this
  have hc1 : stdChunks "2006-01-02".data
      = [Chunk.longYear, Chunk.lit '-', Chunk.zeroMonth, Chunk.lit '-', Chunk.zeroDay] := by
    decide
  have hc2 : stdChunks "2006-02-01".data
      = [Chunk.longYear, Chunk.lit '-', Chunk.zeroDay, Chunk.lit '-', Chunk.zeroMonth] := by
    decide
  have hc3 : stdChunks "01-02-2006".data
      = [Chunk.zeroMonth, Chunk.lit '-', Chunk.zeroDay, Chunk.lit '-', Chunk.longYear] := by
    decide
  have h1 : (timeParse "2006-01-02" (String.mk [a1, a2, '-', b1, b2, '-', y1, y2, y3, y4])).2
      ≠ none := by
    simp [timeParse, hc1, parseChunks_longYear_dash _ _ _ _ _ _ ha1 ha2]
  have h2 : (timeParse "2006-02-01" (String.mk [a1, a2, '-', b1, b2, '-', y1, y2, y3, y4])).2
      ≠ none := by
    simp [timeParse, hc2, parseChunks_longYear_dash _ _ _ _ _ _ ha1 ha2]
  have h3 : timeParse "01-02-2006" (String.mk [a1, a2, '-', b1, b2, '-', y1, y2, y3, y4])
      = (⟨(digitVal y1 * 1000 + digitVal y2 * 100 + digitVal y3 * 10 + digitVal y4 : Nat),
          (digitVal a1 * 10 + digitVal a2 : Nat), (digitVal b1 * 10 + digitVal b2 : Nat)⟩,
         none) := by
    have hd := daysIn_ge ((digitVal a1 : Int) * 10 + (digitVal a2 : Int))
      ((((digitVal y1 : Int) * 10 + (digitVal y2 : Int)) * 10 + (digitVal y3 : Int)) * 10
        + (digitVal y4 : Int))
    have m1 : ¬ ((digitVal a1 : Int) * 10 + (digitVal a2 : Int) ≤ 0) := by omega
    have m2 : ¬ (12 < (digitVal a1 : Int) * 10 + (digitVal a2 : Int)) := by omega
    have m3 : ¬ ((digitVal a1 : Int) * 10 + (digitVal a2 : Int) < 0) := by omega
    have d1 : ¬ ((digitVal b1 : Int) * 10 + (digitVal b2 : Int) < 0) := by omega
    have d2 : ¬ ((digitVal b1 : Int) * 10 + (digitVal b2 : Int) < 1) := by omega
    have d3 : ¬ (daysIn ((digitVal a1 : Int) * 10 + (digitVal a2 : Int))
        ((((digitVal y1 : Int) * 10 + (digitVal y2 : Int)) * 10 + (digitVal y3 : Int)) * 10
          + (digitVal y4 : Int)) < (digitVal b1 : Int) * 10 + (digitVal b2 : Int)) := by omega
    simp [timeParse, hc3, parseChunks, getnum, atoi, leadingInt, ha1, ha2, hb1, hb2, hy1, hy2,
      hy3, hy4, isDigit_ne_minus hy1, isDigit_ne_plus hy1, m1, m2, m3, d1, d2, d3]
    ring
  have hsplit : dlo = ["2006-01-02", "2006-02-01"] ++ "01-02-2006" :: dlo.drop 3 := by decide
  have hpre : ∀ l ∈ ["2006-01-02", "2006-02-01"],
      (timeParse l (String.mk [a1, a2, '-', b1, b2, '-', y1, y2, y3, y4])).2 ≠ none := by
    intro l hl
    simp only [List.mem_cons, List.mem_singleton, List.not_mem_nil, or_false] at hl
    rcases hl with rfl | rfl
    · exact h1
    · exact h2
  have := tryEach_first timeParse (String.mk [a1, a2, '-', b1, b2, '-', y1, y2, y3, y4])
    ["2006-01-02", "2006-02-01"] "01-02-2006" (dlo.drop 3) default hpre (by rw [h3])
  rw [h3] at this
  rw [ParseDate, if_neg hne]
  show ParseDate.tryEach timeParse _ dlo default = _
  rw [hsplit]
  exact this

/-- Witness of C2 at the text "03-04-2020": March 4, 2020 under the layout "01-02-2006". -/
theorem ParseDate_dashed_month_first_witness :
    ParseDate timeParse "03-04-2020" none = (⟨2020, 3, 4⟩, "01-02-2006", none) ∧
    (ParseDate timeParse "03-04-2020" none).2.1 ≠ "02-01-2006" :=
  ParseDate_dashed_month_first '0' '3' '0' '4' '2' '0' '2' '0'
    (by decide) (by decide) (by decide) (by decide) (by decide) (by decide) (by decide)
    (by decide) (by decide) (by decide)

/-- C3: the failures of ParseDate, for every text, layout and single-layout parser: (1) an
empty text gives the invalid-input error, with or without a layout; (2) a non-empty text with
an explicit layout outside the twenty gives the layout-not-supported error, the zero time and
that layout, a result in which the parser does not occur; (3) a non-empty text with an
explicit layout among the twenty gives the time and the error of the one parse with that
layout, and that layout; (4) a non-empty text with no explicit layout that no layout parses
gives the error "date parsing failed". -/
theorem ParseDate_failure_classes {τ ε : Type} [Inhabited τ]
    (parse : String → String → τ × Option ε) (dtText : String) (lo : String) :
    (∀ dateLayout : Option String,
      ParseDate parse "" dateLayout = (default, "", some DateError.invalidInput)) ∧
    (dtText ≠ "" → lo ∉ dlo →
      ParseDate parse dtText (some lo) = (default, lo, some DateError.layoutNotSupported)) ∧
    (dtText ≠ "" → lo ∈ dlo →
      ParseDate parse dtText (some lo)
        = ((parse lo dtText).1, lo, (parse lo dtText).2.map DateError.ofParse)) ∧
    (dtText ≠ "" → (∀ l ∈ dlo, (parse l dtText).2 ≠ none) →
      (ParseDate parse dtText none).2 = ("", some DateError.parsingFailed)) := by
  refine ⟨?_, ?_, ?_, ?_⟩
  · intro dateLayout
    simp [ParseDate]
  · intro h hlo
    have hin : In lo dlo = false := by
      cases hb : In lo dlo with
      | false => rfl
      | true => exact absurd ((In_eq_true_iff lo dlo).1 hb) hlo
    simp [ParseDate, h, hin]
  · intro h hlo
    have hin : In lo dlo = true := (In_eq_true_iff lo dlo).2 hlo
    simp [ParseDate, h, hin]
  · intro h hall
    rw [ParseDate, if_neg h]
    exact tryEach_all_fail parse dtText dlo default hall

/-- Witness of C3 with the standard parser on date layouts, the text "2024-99-99", which no
layout parses, and the layouts "15:04" (not supported) and "2006-01-02" (supported). -/
theorem ParseDate_failure_classes_witness :
    ParseDate timeParse "" (some "2006-01-02") = (default, "", some DateError.invalidInput) ∧
    ParseDate timeParse "2024-99-99" (some "15:04")
      = (default, "15:04", some DateError.layoutNotSupported) ∧
    ParseDate timeParse "2024-99-99" (some "2006-01-02")
      = (default, "2006-01-02", some (DateError.ofParse ParseError.monthOutOfRange)) ∧
    (ParseDate timeParse "2024-99-99" none).2 = ("", some DateError.parsingFailed) :=
  ⟨(ParseDate_failure_classes timeParse "2024-99-99" "15:04").1 (some "2006-01-02"),
   (ParseDate_failure_classes timeParse "2024-99-99" "15:04").2.1 (by decide) (by decide),
   (ParseDate_failure_classes timeParse "2024-99-99" "2006-01-02").2.2.1 (by decide) (by decide),
   (ParseDate_failure_classes timeParse "2024-99-99" "15:04").2.2.2 (by decide) (by decide)⟩

section GoValueLemmas

variable {τ δ : Type}

theorem zeroVal_typeOf [Inhabited τ] [Inhabited δ] (T : GoType) :
    (zeroVal T : GoVal τ δ).typeOf = T := by
  cases T <;> rfl

theorem mustAssert_of_typeOf (v : GoVal τ δ) (T : GoType) (h : v.typeOf = T) :
    mustAssert (some v) T = Outcome.returned v := by
  simp [mustAssert, assertType, h]

end GoValueLemmas

/-- C4 (code bug): If called with the zero value of a numeric type as subject. For an integer
type k the result is falsey only when k is int, and truthy for int8, int16, int32, int64,
uint8, uint16, uint32, uint64 and uint; for float32 and float64 (and the complex types) the
result is truthy. -/
theorem If_zero_number {τ δ T : Type} (k : IntKind) (f : FloatKind) (truthy falsey : T) :
    If (some (GoVal.int k 0 : GoVal τ δ)) truthy falsey
      = Outcome.returned (if k = IntKind.int then falsey else truthy) ∧
    If (some (GoVal.float f FloatVal.posZero : GoVal τ δ)) truthy falsey
      = Outcome.returned truthy := by
  constructor
  · cases k <;> simp [If, eqIntConst]
  · simp [If, eqIntConst]

/-- C5 (code bug): If called with a nil pointer as subject. A nil pointer to string and a nil
pointer to a number return falsey, and a nil pointer to bool makes the call panic. -/
theorem If_nil_pointer {τ δ T : Type} (k : IntKind) (f : FloatKind) (truthy falsey : T) :
    If (some (GoVal.nilPtr GoType.string : GoVal τ δ)) truthy falsey = Outcome.returned falsey ∧
    If (some (GoVal.nilPtr (GoType.int k) : GoVal τ δ)) truthy falsey
      = Outcome.returned falsey ∧
    If (some (GoVal.nilPtr (GoType.float f) : GoVal τ δ)) truthy falsey
      = Outcome.returned falsey ∧
    If (some (GoVal.nilPtr GoType.bool : GoVal τ δ)) truthy falsey = Outcome.panicked := by
  refine ⟨rfl, rfl, rfl, rfl⟩

/-- C6, the claim as stated fails: with T = int, fallback 7 and the plain value 5 as
testValue, Null returns 0 and not 5. -/
theorem Null_plain_value_counterexample :
    Null (GoType.int IntKind.int) (some (GoVal.int IntKind.int 5 : GoVal Unit Unit))
        (some (GoVal.int IntKind.int 7))
      = Outcome.returned (GoVal.int IntKind.int 0) ∧
    Null (GoType.int IntKind.int) (some (GoVal.int IntKind.int 5 : GoVal Unit Unit))
        (some (GoVal.int IntKind.int 7))
      ≠ Outcome.returned (GoVal.int IntKind.int 5) := by
  constructor
  · rfl
  · intro h
    cases h

/-- C6 as amended: for a type T, a fallback d of type T and a value v of type T, Null returns
d when testValue is nil or a nil pointer to T, returns v when testValue is a non-nil pointer
to v, and returns the zero value of T when testValue is the plain value v and T is not a
pointer, map, slice or func type. -/
theorem Null_returns {τ δ : Type} [Inhabited τ] [Inhabited δ] (T : GoType) (d v : GoVal τ δ)
    (hd : d.typeOf = T) (hv : v.typeOf = T) :
    Null T none (some d) = Outcome.returned d ∧
    Null T (some (GoVal.nilPtr T)) (some d) = Outcome.returned d ∧
    Null T (some (GoVal.ptrTo v)) (some d) = Outcome.returned v ∧
    (isRefKind T = false → Null T (some v) (some d) = Outcome.returned (zeroVal T)) := by
  refine ⟨?_, ?_, ?_, ?_⟩
  · simp [Null, mustAssert_of_typeOf d T hd]
  · simp [Null, GoVal.typeOf, isRefKind, GoVal.isNil, mustAssert_of_typeOf d T hd]
  · simp [Null, GoVal.typeOf, isRefKind, GoVal.isNil, GoVal.elem, mustAssert_of_typeOf v T hv]
  · intro hT
    simp [Null, hv, hT]

/-- Witness of the amended C6 with T = int, fallback 7 and value 5. -/
theorem Null_returns_witness :
    Null (GoType.int IntKind.int) none (some (GoVal.int IntKind.int 7 : GoVal Unit Unit))
      = Outcome.returned (GoVal.int IntKind.int 7) ∧
    Null (GoType.int IntKind.int) (some (GoVal.nilPtr (GoType.int IntKind.int)))
        (some (GoVal.int IntKind.int 7 : GoVal Unit Unit))
      = Outcome.returned (GoVal.int IntKind.int 7) ∧
    Null (GoType.int IntKind.int) (some (GoVal.ptrTo (GoVal.int IntKind.int 5)))
        (some (GoVal.int IntKind.int 7 : GoVal Unit Unit))
      = Outcome.returned (GoVal.int IntKind.int 5) ∧
    (isRefKind (GoType.int IntKind.int) = false →
      Null (GoType.int IntKind.int) (some (GoVal.int IntKind.int 5))
          (some (GoVal.int IntKind.int 7 : GoVal Unit Unit))
        = Outcome.returned (zeroVal (GoType.int IntKind.int))) :=
  Null_returns (GoType.int IntKind.int) (GoVal.int IntKind.int 7) (GoVal.int IntKind.int 5)
    rfl rfl

/-- C7, the claim as stated fails: with T = int, a non-nil pointer to the string "abc" as
testValue and fallback 0, Null panics; and with a nil testValue and the string "abc" as
fallback it panics as well. -/
theorem Null_bad_cast_counterexample :
    Null (GoType.int IntKind.int) (some (GoVal.ptrTo (GoVal.str "abc") : GoVal Unit Unit))
        (some (GoVal.int IntKind.int 0))
      = Outcome.panicked ∧
    Null (GoType.int IntKind.int) (none : Option (GoVal Unit Unit)) (some (GoVal.str "abc"))
      = Outcome.panicked := by
  constructor <;> rfl

/-- C7 as amended: Null panics exactly when (a) the fallback is used, that is testValue is
nil, a nil pointer or a nil map, slice or func, and the fallback is not nil and not of type
T, or (b) testValue is a non-nil pointer to a value that is not of type T, or (c) testValue is
a non-nil map, slice or func; and whenever Null returns, the value returned is of type T. -/
theorem Null_panics_iff {τ δ : Type} [Inhabited τ] [Inhabited δ] (T : GoType)
    (testValue defaultValue : Option (GoVal τ δ)) :
    (Null T testValue defaultValue = Outcome.panicked ↔
      ((testValue = none ∨ (∃ e, testValue = some (GoVal.nilPtr e)) ∨
          (∃ k, testValue = some (GoVal.handle k true))) ∧
        ∃ d, defaultValue = some d ∧ d.typeOf ≠ T) ∨
      (∃ w, testValue = some (GoVal.ptrTo w) ∧ w.typeOf ≠ T) ∨
      (∃ k, testValue = some (GoVal.handle k false))) ∧
    (∀ r, Null T testValue defaultValue = Outcome.returned r → r.typeOf = T) := by
  have hz := zeroVal_typeOf (τ := τ) (δ := δ) T
  have hdef : ∀ dv : Option (GoVal τ δ),
      (match dv with | none => some (zeroVal T) | some d => some d)
        = some (dv.getD (zeroVal T)) := by
    intro dv
    cases dv <;> rfl
  have key : ∀ dv : Option (GoVal τ δ),
      (mustAssert (some (dv.getD (zeroVal T))) T = Outcome.panicked ↔
        ∃ d, dv = some d ∧ d.typeOf ≠ T) ∧
      (∀ r, mustAssert (some (dv.getD (zeroVal T))) T = Outcome.returned r → r.typeOf = T) := by
    intro dv
    cases dv with
    | none => simp [mustAssert, assertType, hz]
    | some d =>
      by_cases hd : d.typeOf = T
      · simp [mustAssert, assertType, hd]
      · simp [mustAssert, assertType, hd]
  have hplain : ∀ vo : GoVal τ δ, isRefKind vo.typeOf = false →
      Null T (some vo) defaultValue = Outcome.returned (zeroVal T) := by
    intro vo h
    simp [Null, h]
  cases testValue with
  | none =>
    have e : Null T none defaultValue = mustAssert (some (defaultValue.getD (zeroVal T))) T := by
      simp [Null, hdef]
    rw [e]
    simpa using key defaultValue
  | some vo =>
    cases vo with
    | nilPtr e =>
      have e : Null T (some (GoVal.nilPtr e)) defaultValue
          = mustAssert (some (defaultValue.getD (zeroVal T))) T := by
        simp [Null, hdef, GoVal.typeOf, isRefKind, GoVal.isNil]
      rw [e]
      simpa using key defaultValue
    | ptrTo w =>
      by_cases hw : w.typeOf = T
      · simp [Null, GoVal.typeOf, isRefKind, GoVal.isNil, GoVal.elem, mustAssert, assertType, hw]
      · simp [Null, GoVal.typeOf, isRefKind, GoVal.isNil, GoVal.elem, mustAssert, assertType, hw]
    | handle k n =>
      cases n with
      | true =>
        have e : Null T (some (GoVal.handle k true)) defaultValue
            = mustAssert (some (defaultValue.getD (zeroVal T))) T := by
          simp [Null, hdef, GoVal.typeOf, isRefKind, GoVal.isNil]
        rw [e]
        simpa using key defaultValue
      | false => simp [Null, GoVal.typeOf, isRefKind, GoVal.isNil, GoVal.elem]
    | str s => rw [hplain (GoVal.str s) rfl]; simp [hz]
    | int k n => rw [hplain (GoVal.int k n) rfl]; simp [hz]
    | float k x => rw [hplain (GoVal.float k x) rfl]; simp [hz]
    | bool b => rw [hplain (GoVal.bool b) rfl]; simp [hz]
    | time t => rw [hplain (GoVal.time t) rfl]; simp [hz]
    | decimal d => rw [hplain (GoVal.decimal d) rfl]; simp [hz]
    | struct n => rw [hplain (GoVal.struct n) rfl]; simp [hz]

/-- Witness of the amended C7 with T = int, a non-nil pointer to 5 as testValue and fallback
7: the call does not panic and the value 5 it returns is of type int. -/
theorem Null_panics_iff_witness :
    Null (GoType.int IntKind.int) (some (GoVal.ptrTo (GoVal.int IntKind.int 5)))
        (some (GoVal.int IntKind.int 7 : GoVal Unit Unit))
      = Outcome.returned (GoVal.int IntKind.int 5) ∧
    (GoVal.int IntKind.int 5 : GoVal Unit Unit).typeOf = GoType.int IntKind.int :=
  ⟨rfl, (Null_panics_iff (GoType.int IntKind.int)
    (some (GoVal.ptrTo (GoVal.int IntKind.int 5)))
    (some (GoVal.int IntKind.int 7 : GoVal Unit Unit))).2 (GoVal.int IntKind.int 5) rfl⟩

section MapValLemmas

variable {τ δ ε : Type} [Inhabited τ]

theorem MapVal_of_assert (parse : String → String → τ × Option ε)
    (newFromString : String → Option δ) (T : GoType)
    (m : String → Option (Option (GoVal τ δ))) (key : String) (dateLayout : List String)
    (miv : Option (GoVal τ δ)) (mv : GoVal τ δ) (hk : m key = some miv)
    (ha : assertType miv T = some mv) :
    MapVal parse newFromString T (some m) key dateLayout = some mv := by
  simp [MapVal, hk, ha]

theorem MapVal_time_str (parse : String → String → τ × Option ε)
    (newFromString : String → Option δ)
    (m : String → Option (Option (GoVal τ δ))) (key : String) (dateLayout : List String)
    (s : String) (hk : m key = some (some (GoVal.str s))) :
    MapVal parse newFromString GoType.time (some m) key dateLayout
      = match ParseDate parse s dateLayout.head? with
        | (_, _, some _) => none
        | (v, _, none) => some (GoVal.time v) := by
  simp [MapVal, hk, assertType, GoVal.typeOf]

theorem MapVal_decimal_str (parse : String → String → τ × Option ε)
    (newFromString : String → Option δ)
    (m : String → Option (Option (GoVal τ δ))) (key : String) (dateLayout : List String)
    (s : String) (hk : m key = some (some (GoVal.str s))) :
    MapVal parse newFromString GoType.decimal (some m) key dateLayout
      = match newFromString s with
        | none => none
        | some v => some (GoVal.decimal v) := by
  simp [MapVal, hk, assertType, GoVal.typeOf]

theorem MapVal_no_path (parse : String → String → τ × Option ε)
    (newFromString : String → Option δ) (T : GoType)
    (m : String → Option (Option (GoVal τ δ))) (key : String) (dateLayout : List String)
    (miv : Option (GoVal τ δ)) (hk : m key = some miv) (ha : assertType miv T = none)
    (hno : (T = GoType.time ∨ T = GoType.decimal) → ∀ s, miv ≠ some (GoVal.str s)) :
    MapVal parse newFromString T (some m) key dateLayout = none := by
  cases T with
  | time =>
    cases miv with
    | none => simp [MapVal, hk, ha]
    | some v =>
      cases v with
      | str s => exact absurd rfl (hno (Or.inl rfl) s)
      | _ => simp [MapVal, hk, ha]
  | decimal =>
    cases miv with
    | none => simp [MapVal, hk, ha]
    | some v =>
      cases v with
      | str s => exact absurd rfl (hno (Or.inr rfl) s)
      | _ => simp [MapVal, hk, ha]
  | _ => simp [MapVal, hk, ha]

end MapValLemmas

/-- C8: MapVal, for every map, key, type T, parser and layouts. It returns nil for a nil map;
and it returns a handle to r exactly when the key is present and either the stored value is
r and has type T, or T is the time type, the stored value is a string that ParseDate parses
without error (with the first layout passed, or none), and r is the parsed time, or T is the
decimal type, the stored value is a string that the decimal parser parses, and r is the
parsed decimal. In every other case (key absent, other type, failed parse) it returns nil. -/
theorem MapVal_some_iff {τ δ ε : Type} [Inhabited τ] (parse : String → String → τ × Option ε)
    (newFromString : String → Option δ) (T : GoType)
    (kvmap : Option (String → Option (Option (GoVal τ δ)))) (key : String)
    (dateLayout : List String) (r : GoVal τ δ) :
    MapVal parse newFromString T none key dateLayout = none ∧
    (MapVal parse newFromString T kvmap key dateLayout = some r ↔
      ∃ m miv, kvmap = some m ∧ m key = some miv ∧
        ((miv = some r ∧ r.typeOf = T) ∨
         (T = GoType.time ∧ ∃ s t lo, miv = some (GoVal.str s) ∧
            ParseDate parse s dateLayout.head? = (t, lo, none) ∧ r = GoVal.time t) ∨
         (T = GoType.decimal ∧ ∃ s d, miv = some (GoVal.str s) ∧
            newFromString s = some d ∧ r = GoVal.decimal d))) := by
  refine ⟨rfl, ?_⟩
  cases kvmap with
  | none => simp [MapVal]
  | some m =>
    cases hk : m key with
    | none => simp [MapVal, hk]
    | some miv =>
      have hex : (∃ m2 miv2, some m = some m2 ∧ m2 key = some miv2 ∧
          ((miv2 = some r ∧ r.typeOf = T) ∨
           (T = GoType.time ∧ ∃ s t lo, miv2 = some (GoVal.str s) ∧
              ParseDate parse s dateLayout.head? = (t, lo, none) ∧ r = GoVal.time t) ∨
           (T = GoType.decimal ∧ ∃ s d, miv2 = some (GoVal.str s) ∧
              newFromString s = some d ∧ r = GoVal.decimal d))) ↔
          ((miv = some r ∧ r.typeOf = T) ∨
           (T = GoType.time ∧ ∃ s t lo, miv = some (GoVal.str s) ∧
              ParseDate parse s dateLayout.head? = (t, lo, none) ∧ r = GoVal.time t) ∨
           (T = GoType.decimal ∧ ∃ s d, miv = some (GoVal.str s) ∧
              newFromString s = some d ∧ r = GoVal.decimal d)) := by
        constructor
        · rintro ⟨m2, miv2, hm, hmiv, hcase⟩
          injection hm with hm
          subst hm
          rw [hk] at hmiv
          injection hmiv with hmiv
          subst hmiv
          exact hcase
        · intro hcase
          exact ⟨m, miv, rfl, hk, hcase⟩
      rw [hex]
      cases ha : assertType miv T with
      | some mv =>
        -- the stored value has type T
        rw [MapVal_of_assert parse newFromString T m key dateLayout miv mv hk ha]
        cases miv with
        | none => simp [assertType] at ha
        | some v =>
          by_cases hv : v.typeOf = T
          · simp only [assertType, hv, if_true] at ha
            injection ha with ha
            subst ha
            constructor
            · intro h
              injection h with h
              subst h
              exact Or.inl ⟨rfl, hv⟩
            · rintro (⟨h, _⟩ | ⟨hT, s, t, lo, h, _, _⟩ | ⟨hT, s, d, h, _, _⟩)
              · exact h
              · injection h with h
                subst h
                rw [hT] at hv
                cases hv
              · injection h with h
                subst h
                rw [hT] at hv
                cases hv
          · simp [assertType, hv] at ha
      | none =>
        have hnot : ¬ (miv = some r ∧ r.typeOf = T) := by
          rintro ⟨h1, h2⟩
          subst h1
          simp [assertType, h2] at ha
        by_cases hstr : (T = GoType.time ∨ T = GoType.decimal) ∧ ∃ s, miv = some (GoVal.str s)
        · obtain ⟨hT, s, hs⟩ := hstr
          subst hs
          rcases hT with hT | hT
          · subst hT
            rw [MapVal_time_str parse newFromString m key dateLayout s hk]
            rcases hp : ParseDate parse s dateLayout.head? with ⟨t, lo, e⟩
            cases e with
            | none =>
              constructor
              · intro h
                injection h with h
                exact Or.inr (Or.inl ⟨rfl, s, t, lo, rfl, hp, h.symm⟩)
              · rintro (h | ⟨_, s2, t2, lo2, h, hp2, hr⟩ | ⟨hT, _⟩)
                · exact absurd h hnot
                · injection h with h
                  injection h with h
                  subst h
                  rw [hp] at hp2
                  injection hp2 with ht _
                  rw [hr, ht]
                · cases hT
            | some e =>
              constructor
              · intro h
                cases h
              · rintro (h | ⟨_, s2, t2, lo2, h, hp2, hr⟩ | ⟨hT, _⟩)
                · exact absurd h hnot
                · injection h with h
                  injection h with h
                  subst h
                  rw [hp] at hp2
                  injection hp2 with _ hp3
                  injection hp3 with _ hp4
                  cases hp4
                · cases hT
          · subst hT
            rw [MapVal_decimal_str parse newFromString m key dateLayout s hk]
            cases hp : newFromString s with
            | some d =>
              constructor
              · intro h
                injection h with h
                exact Or.inr (Or.inr ⟨rfl, s, d, rfl, hp, h.symm⟩)
              · rintro (h | ⟨hT, _⟩ | ⟨_, s2, d2, h, hp2, hr⟩)
                · exact absurd h hnot
                · cases hT
                · injection h with h
                  injection h with h
                  subst h
                  rw [hp] at hp2
                  injection hp2 with hd
                  rw [hr, hd]
            | none =>
              constructor
              · intro h
                cases h
              · rintro (h | ⟨hT, _⟩ | ⟨_, s2, d2, h, hp2, hr⟩)
                · exact absurd h hnot
                · cases hT
                · injection h with h
                  injection h with h
                  subst h
                  rw [hp] at hp2
                  cases hp2
        · have hno : (T = GoType.time ∨ T = GoType.decimal) → ∀ s, miv ≠ some (GoVal.str s) := by
            intro hT s hs
            exact hstr ⟨hT, s, hs⟩
          rw [MapVal_no_path parse newFromString T m key dateLayout miv hk ha hno]
          constructor
          · intro h
            cases h
          · rintro (h | ⟨hT, s, t, lo, h, _, _⟩ | ⟨hT, s, d, h, _, _⟩)
            · exact absurd h hnot
            · exact absurd h (hno (Or.inl hT) s)
            · exact absurd h (hno (Or.inr hT) s)

/-- C9 (code bug): MapVal with target type time, the stored string "03-04-2020" and the two
layouts "2006-01-02" and "01-02-2006" passed by the caller. The string parses under the second
layout passed, and MapVal returns nil: only the first layout passed is given to ParseDate. -/
theorem MapVal_second_layout_ignored :
    (timeParse "01-02-2006" "03-04-2020") = (⟨2020, 3, 4⟩, none) ∧
    MapVal timeParse (fun _ => (none : Option Unit)) GoType.time
        (some (fun k => if k = "d" then some (some (GoVal.str "03-04-2020")) else none)) "d"
        ["2006-01-02", "01-02-2006"]
      = none ∧
    MapVal timeParse (fun _ => (none : Option Unit)) GoType.time
        (some (fun k => if k = "d" then some (some (GoVal.str "03-04-2020")) else none)) "d"
        ["01-02-2006"]
      = some (GoVal.time ⟨2020, 3, 4⟩) := by
  refine ⟨by decide, by decide, by decide⟩

/-- C10 (code bug): Elem on the array [10, 20] with index -1 and a flag. The test
`arrl >= index` holds, the flag is set to true and the index expression panics. -/
theorem Elem_negative_index_panics :
    Elem (some [(10 : Int), 20]) (-1) (some false) = (some true, Outcome.panicked) := by
  decide

section BuildSeriesLemmas

theorem digitChar_facts (d : Nat) (h : d < 10) :
    isDigit (digitChar d) = true ∧ digitVal (digitChar d) = d ∧ digitChar d ≠ '-' ∧
    digitChar d ≠ '%' ∧ (digitChar d).utf8Size = 1 ∧ (digitChar d = '0' ↔ d = 0) := by
  interval_cases d <;> decide

theorem natDigits_head (fuel n : Nat) (h1 : 1 ≤ n) (h2 : n < fuel) :
    ∃ c tail, natDigits fuel n = c :: tail ∧ isDigit c = true ∧ c ≠ '0' ∧ c ≠ '-' := by
  induction fuel generalizing n with
  | zero => omega
  | succ fuel ih =>
    by_cases hn : n < 10
    · have hf := digitChar_facts n hn
      refine ⟨digitChar n, [], by simp [natDigits, hn], hf.1, ?_, hf.2.2.1⟩
      intro h0
      have := hf.2.2.2.2.2.1 h0
      omega
    · obtain ⟨c, tail, hc, h3, h4, h5⟩ := ih (n / 10) (by omega) (by omega)
      exact ⟨c, tail ++ [digitChar (n % 10)], by simp [natDigits, hn, hc], h3, h4, h5⟩

theorem natDigits_utf8Len (fuel n : Nat) (h2 : n < fuel) :
    String.utf8Len (natDigits fuel n) = (natDigits fuel n).length := by
  induction fuel generalizing n with
  | zero => omega
  | succ fuel ih =>
    by_cases hn : n < 10
    · simp [natDigits, hn, (digitChar_facts n hn).2.2.2.2.1]
    · have := ih (n / 10) (by omega)
      simp [natDigits, hn, this, (digitChar_facts (n % 10) (by omega)).2.2.2.2.1]

/-- In the width, the digits of `n` are read back as the number `n`, as long as `n / 10`
is not too large. -/
theorem sprintfAux_width_digits (fuel n : Nat) (h2 : n < fuel) (hn : n / 10 ≤ 1000000)
    (zero minus : Bool) (rest : List Char) (args : List FmtArg) :
    sprintfAux (natDigits fuel n ++ rest) (FmtState.width zero minus 0) args
      = sprintfAux rest (FmtState.width zero minus n) args := by
  induction fuel generalizing n rest with
  | zero => omega
  | succ fuel ih =>
    by_cases h10 : n < 10
    · have hf := digitChar_facts n h10
      simp [natDigits, h10, sprintfAux, hf.1, hf.2.1, tooLarge]
    · have hf := digitChar_facts (n % 10) (by omega)
      have hlarge : tooLarge (n / 10) = false := by simp [tooLarge, hn]
      have := ih (n / 10) (by omega) (by omega) (digitChar (n % 10) :: rest)
      simp only [natDigits, h10, if_false, List.append_assoc, List.singleton_append]
      rw [this]
      simp only [sprintfAux, hf.1, hf.2.1, hlarge, if_true]
      have e : n / 10 * 10 + n % 10 = n := by omega
      simp [e]

theorem fmtInteger_zero_padded (w : Nat) (series : Int) (hs : 0 ≤ series) :
    fmtInteger true false (some w) series
      = List.replicate (w - (FormatUint series.natAbs).length) '0' ++ FormatUint series.natAbs := by
  have hneg : ¬ series < 0 := by omega
  simp only [fmtInteger, hneg, decide_False, if_true, Bool.false_eq_true, if_false, pad]
  by_cases hw : w = 0
  · simp [hw]
  · have hlen : w - (List.replicate (w - (FormatUint series.natAbs).length) '0'
        ++ FormatUint series.natAbs).length = 0 := by
      simp only [List.length_append, List.length_replicate]
      omega
    simp only [List.length_append, List.length_replicate] at hlen
    simp [hw, hlen]

theorem fmtInteger_plain (zero : Bool) (series : Int) (hs : 0 ≤ series) :
    fmtInteger zero false none series = FormatUint series.natAbs := by
  have hneg : ¬ series < 0 := by omega
  simp [fmtInteger, hneg, pad]

/-- The result of `BuildSeries` for a counter that is not negative and a width `d` that is
not negative and is accepted by `fmt`: the digits of the counter, preceded by zeros up to
`d` characters, between the two affixes. -/
theorem BuildSeries_padded (series : Int) (opt : SeriesOptions) (d : Nat)
    (hs : 0 ≤ series) (hL : opt.Length > 0)
    (hd : opt.Length - ((opt.Prefix.utf8ByteSize : Int) + (opt.Suffix.utf8ByteSize : Int)) = d)
    (hw : d / 10 ≤ 1000000) :
    BuildSeries series opt
      = String.mk (opt.Prefix.data ++
          (List.replicate (d - (FormatUint series.natAbs).length) '0'
            ++ FormatUint series.natAbs) ++ opt.Suffix.data) := by
  have hItoa : Itoa (d : Int) = FormatUint d := by
    have : ¬ ((d : Int) < 0) := by omega
    simp [Itoa, this]
  have hfmt : ("%s" ++ ("%0" ++ String.mk (FormatUint d) ++ "d") ++ "%s").data
      = '%' :: 's' :: '%' :: '0' :: (FormatUint d ++ ['d', '%', 's']) := by
    simp [String.data_append]
  have hS : isDigit 's' = false := by decide
  have hD : isDigit 'd' = false := by decide
  simp only [BuildSeries, hL, if_true, hd, hItoa, Sprintf, hfmt]
  congr 1
  by_cases h0 : d = 0
  · subst h0
    have hz : FormatUint 0 = ['0'] := by decide
    rw [hz]
    simp [sprintfAux, hS, hD, printArg, pad, extraArgs, fmtInteger_plain true series hs]
  · obtain ⟨c, tail, hc, h3, h4, h5⟩ := natDigits_head (d + 1) d (by omega) (by omega)
    have hstart : ∀ rest args,
        sprintfAux (FormatUint d ++ rest) (FmtState.flags true false) args
          = sprintfAux rest (FmtState.width true false d) args := by
      intro rest args
      rw [← sprintfAux_width_digits (d + 1) d (by omega) hw true false rest args]
      simp [FormatUint, hc, sprintfAux, h3, h4, h5, tooLarge]
    simp [sprintfAux, hS, hD, printArg, pad, extraArgs, hstart,
      fmtInteger_zero_padded d series hs]

/-- The result of `BuildSeries` for a counter that is not negative when `Length` is not
positive: the digits of the counter between the two affixes. -/
theorem BuildSeries_unpadded (series : Int) (opt : SeriesOptions)
    (hs : 0 ≤ series) (hL : opt.Length ≤ 0) :
    BuildSeries series opt
      = String.mk (opt.Prefix.data ++ FormatUint series.natAbs ++ opt.Suffix.data) := by
  have hL2 : ¬ opt.Length > 0 := by omega
  have hfmt : ("%s%d%s" : String).data = ['%', 's', '%', 'd', '%', 's'] := rfl
  have hS : isDigit 's' = false := by decide
  have hD : isDigit 'd' = false := by decide
  simp only [BuildSeries, hL2, if_false, Sprintf, hfmt]
  congr 1
  simp [sprintfAux, hS, hD, printArg, pad, extraArgs, fmtInteger_plain false series hs]

theorem utf8Len_replicate_zero (k : Nat) : String.utf8Len (List.replicate k '0') = k := by
  induction k with
  | zero => rfl
  | succ k ih =>
    have h : ('0' : Char).utf8Size = 1 := by decide
    simp [List.replicate_succ, ih, h]

theorem utf8ByteSize_eq_utf8Len (s : String) : s.utf8ByteSize = String.utf8Len s.data := by
  cases s
  rfl

end BuildSeriesLemmas

/-- C11 (code bug): BuildSeries with counter 7, the three-byte affix "ABC" before the
counter, no affix after it and Length 1. The width is 1 - 3 = -2, the format built is
"%s%0-2d%s", in which the minus sign is the flag for padding on the right, and the result is
"ABC7 " with a space after the digit. On the example of the specification, with "ID-" and
Length 6, the result is "ID-007". -/
theorem BuildSeries_negative_width :
    BuildSeries 7 ⟨"ABC", "", 1⟩ = "ABC7 " ∧ BuildSeries 7 ⟨"ID-", "", 6⟩ = "ID-007" := by
  constructor <;> decide

/-- C12, the claim as stated fails: with counter 7, empty affixes and Length 20000000 the
conditions of the claim hold and the counter has one digit, but the width is more than fmt
accepts, the directive is dropped, and the output has 34 bytes and not 20000000. -/
theorem BuildSeries_length_counterexample :
    BuildSeries 7 ⟨"", "", 20000000⟩ = "%!(NOVERB)%!(EXTRA int=7, string=)" ∧
    (BuildSeries 7 ⟨"", "", 20000000⟩).utf8ByteSize ≠ 20000000 := by
  constructor <;> decide

/-- C12 as amended: for a counter that is not negative and options with Length > 0,
len(Prefix) + len(Suffix) <= Length and a width Length - len(Prefix) - len(Suffix) of at most
10000009 (the largest width fmt accepts), the output has exactly Length bytes when the counter
has at most that many digits, and len(Prefix) + digit count + len(Suffix) bytes, which is more
than Length, when it has more digits. -/
theorem BuildSeries_length (series : Int) (opt : SeriesOptions)
    (hs : 0 ≤ series) (hL : opt.Length > 0)
    (hfit : (opt.Prefix.utf8ByteSize : Int) + (opt.Suffix.utf8ByteSize : Int) ≤ opt.Length)
    (hw : opt.Length - ((opt.Prefix.utf8ByteSize : Int) + (opt.Suffix.utf8ByteSize : Int))
      ≤ 10000009) :
    (((FormatUint series.natAbs).length : Int)
        ≤ opt.Length - ((opt.Prefix.utf8ByteSize : Int) + (opt.Suffix.utf8ByteSize : Int)) →
      ((BuildSeries series opt).utf8ByteSize : Int) = opt.Length) ∧
    (opt.Length - ((opt.Prefix.utf8ByteSize : Int) + (opt.Suffix.utf8ByteSize : Int))
        < ((FormatUint series.natAbs).length : Int) →
      (BuildSeries series opt).utf8ByteSize
          = opt.Prefix.utf8ByteSize + (FormatUint series.natAbs).length
            + opt.Suffix.utf8ByteSize ∧
      opt.Length < ((BuildSeries series opt).utf8ByteSize : Int)) := by
  obtain ⟨d, hd⟩ : ∃ d : Nat,
      opt.Length - ((opt.Prefix.utf8ByteSize : Int) + (opt.Suffix.utf8ByteSize : Int)) = d :=
    ⟨(opt.Length - ((opt.Prefix.utf8ByteSize : Int) + (opt.Suffix.utf8ByteSize : Int))).toNat,
      by omega⟩
  have hd10 : d / 10 ≤ 1000000 := by omega
  have hlen : (BuildSeries series opt).utf8ByteSize
      = opt.Prefix.utf8ByteSize + ((d - (FormatUint series.natAbs).length)
          + (FormatUint series.natAbs).length) + opt.Suffix.utf8ByteSize := by
    rw [BuildSeries_padded series opt d hs hL hd hd10]
    simp only [String.utf8ByteSize_mk, String.utf8Len_append, utf8Len_replicate_zero,
      utf8ByteSize_eq_utf8Len]
    rw [show String.utf8Len (FormatUint series.natAbs) = (FormatUint series.natAbs).length from
      natDigits_utf8Len _ _ (by omega)]
  rw [hd]
  constructor
  · intro h
    rw [hlen]
    omega
  · intro h
    rw [hlen]
    constructor <;> omega

/-- Witness of the amended C12: counter 7 with the affixes "ID-" and "X" and Length 6 gives
six bytes, and counter 1234 with the same affixes and Length 6 gives 3 + 4 + 1 = 8 bytes. -/
theorem BuildSeries_length_witness :
    ((BuildSeries 7 ⟨"ID-", "X", 6⟩).utf8ByteSize : Int) = 6 ∧
    (BuildSeries 1234 ⟨"ID-", "X", 6⟩).utf8ByteSize = 3 + 4 + 1 :=
  ⟨(BuildSeries_length 7 ⟨"ID-", "X", 6⟩ (by decide) (by decide) (by decide) (by decide)).1
      (by decide),
   ((BuildSeries_length 1234 ⟨"ID-", "X", 6⟩ (by decide) (by decide) (by decide)
      (by decide)).2 (by decide)).1⟩


section GuardedMapLemmas

theorem TryLock_of_ne_free (g : RWMutex) (h : g ≠ RWMutex.free) : g.TryLock = (false, g) := by
  cases g with
  | free => exact absurd rfl h
  | locked => rfl
  | rlocked n => rfl

end GuardedMapLemmas

/-- C13: on a map that is not nil and a guard g that is free or held. With a free guard
SafeMapWrite leaves the map with key set to value and every other key as before, and
SafeMapRead returns the value stored under key, or the zero value when the key is absent;
with a held guard SafeMapWrite leaves the map as it was and SafeMapRead returns the zero
value whatever the map holds; in all four cases the guard is afterwards in the state it was
in before. -/
theorem SafeMap_effect_iff_free {T : Type} [Inhabited T] (m : String → Option T)
    (key : String) (value : T) (g : RWMutex) :
    (g = RWMutex.free →
      (∃ m2, SafeMapWrite (some (some m)) key value (some g) = (some (some m2), some g, true) ∧
        m2 key = some value ∧ ∀ k, k ≠ key → m2 k = m k) ∧
      SafeMapRead (some (some m)) key (some g) = (some g, (m key).getD default)) ∧
    (g ≠ RWMutex.free →
      SafeMapWrite (some (some m)) key value (some g) = (some (some m), some g, true) ∧
      SafeMapRead (some (some m)) key (some g) = (some g, default)) := by
  constructor
  · intro hg
    subst hg
    refine ⟨⟨mapAssign m key value, rfl, ?_, ?_⟩, rfl⟩
    · simp [mapAssign]
    · intro k hk
      simp [mapAssign, hk]
  · intro hg
    have h := TryLock_of_ne_free g hg
    constructor
    · simp [SafeMapWrite, h]
    · simp [SafeMapRead, h]

/-- Witness of C13: the map that holds 5 under "a", written with 9 under "a" and read at
"a", once with a free guard and once with a guard that is locked. -/
theorem SafeMap_effect_iff_free_witness :
    SafeMapRead (some (some (fun k => if k = "a" then some (5 : Int) else none))) "a"
        (some RWMutex.free) = (some RWMutex.free, 5) ∧
    SafeMapRead (some (some (fun k => if k = "a" then some (5 : Int) else none))) "a"
        (some RWMutex.locked) = (some RWMutex.locked, 0) :=
  ⟨((SafeMap_effect_iff_free (fun k => if k = "a" then some (5 : Int) else none) "a" 9
      RWMutex.free).1 rfl).2,
   ((SafeMap_effect_iff_free (fun k => if k = "a" then some (5 : Int) else none) "a" 9
      RWMutex.locked).2 (by decide)).2⟩

/-- C14, the claim as stated fails: SafeMapWrite through a nil pointer to the map, with a
free guard, returns false; so it does into a nil map and with a nil guard. -/
theorem SafeMapWrite_false_counterexample :
    (SafeMapWrite (none : Option (Option (String → Option Int))) "k" 1
      (some RWMutex.free)).2.2 = false ∧
    (SafeMapWrite (some (none : Option (String → Option Int))) "k" 1
      (some RWMutex.free)).2.2 = false ∧
    (SafeMapWrite (some (some (fun _ => (none : Option Int)))) "k" 1 none).2.2 = false := by
  refine ⟨rfl, rfl, rfl⟩

/-- C14 as amended: SafeMapWrite always returns (no panic leaves it), and the value it
returns is false exactly when a panic was stopped inside, that is when the guard is nil, or
the guard is free and the pointer to the map or the map is nil; it is true in every other
case, whether the guard is free or held. -/
theorem SafeMapWrite_result {T : Type} (ptrMap : Option (Option (String → Option T)))
    (key : String) (value : T) (rw : Option RWMutex) :
    ((SafeMapWrite ptrMap key value rw).2.2 = false ↔
      rw = none ∨ (rw = some RWMutex.free ∧ (ptrMap = none ∨ ptrMap = some none))) ∧
    ((SafeMapWrite ptrMap key value rw).2.2 = true ↔
      ∃ g, rw = some g ∧ (g ≠ RWMutex.free ∨ ∃ m, ptrMap = some (some m))) := by
  cases rw with
  | none => simp [SafeMapWrite]
  | some g =>
    cases g with
    | free =>
      cases ptrMap with
      | none => simp [SafeMapWrite, RWMutex.TryLock]
      | some pm =>
        cases pm with
        | none => simp [SafeMapWrite, RWMutex.TryLock]
        | some m => simp [SafeMapWrite, RWMutex.TryLock]
    | locked => simp [SafeMapWrite, RWMutex.TryLock]
    | rlocked n => simp [SafeMapWrite, RWMutex.TryLock]

/-- C15: IsNullOrEmpty is true on the nil pointer, true on a pointer to the zero value, and
false on a pointer to any value other than the zero value. -/
theorem IsNullOrEmpty_spec {T : Type} [Inhabited T] [DecidableEq T] :
    IsNullOrEmpty (none : Option T) = true ∧
    IsNullOrEmpty (New (getZero : T)) = true ∧
    ∀ v : T, v ≠ getZero → IsNullOrEmpty (New v) = false := by
  refine ⟨rfl, by simp [IsNullOrEmpty, New], ?_⟩
  intro v hv
  simp [IsNullOrEmpty, New, hv]

/-- Witness of C15 on the integers: the pointer to 0 is empty and the pointer to 7 is not. -/
theorem IsNullOrEmpty_spec_witness :
    IsNullOrEmpty (New (0 : Int)) = true ∧ IsNullOrEmpty (New (7 : Int)) = false :=
  ⟨(IsNullOrEmpty_spec (T := Int)).2.1, (IsNullOrEmpty_spec (T := Int)).2.2 7 (by decide)⟩

/-- C16: Val gives back the value New was given, and Val of the nil pointer is the zero
value. -/
theorem Val_New {T : Type} [Inhabited T] (v : T) :
    Val (New v) = v ∧ Val (none : Option T) = getZero := by
  exact ⟨rfl, rfl⟩

/-- The three results of `NonNullComp` in terms of the comparison `==` of the type. -/
theorem NonNullComp_cases {T : Type} [GoComparable T] (a b : Option T) :
    (NonNullComp a b = -1 ↔ a = none ∨ b = none) ∧
    (NonNullComp a b = 0 ↔ ∃ x y, a = some x ∧ b = some y ∧ GoComparable.goEq x y = true) ∧
    (NonNullComp a b = 1 ↔ ∃ x y, a = some x ∧ b = some y ∧ GoComparable.goEq x y = false) := by
  cases a with
  | none => cases b <;> simp [NonNullComp]
  | some x =>
    cases b with
    | none => simp [NonNullComp]
    | some y =>
      cases h : GoComparable.goEq x y <;> simp [NonNullComp, h]

/-- C17 (code bug): NonNullComp on pointers to two decimals that both hold 1.50, that is the
integer 150 with exponent -2, each with a big.Int of its own (at the addresses 1 and 2), as two
calls of decimal.NewFromString("1.50") make them: the two hold equal values and the result is
1. On two pointers to one and the same decimal the result is 0, on a nil pointer it is -1,
and on two pointers to the integer 7 it is 0. -/
theorem NonNullComp_equal_decimals :
    NonNullComp (some (⟨some ⟨1, 150⟩, -2⟩ : Decimal)) (some ⟨some ⟨2, 150⟩, -2⟩) = 1 ∧
    NonNullComp (some (⟨some ⟨1, 150⟩, -2⟩ : Decimal)) (some ⟨some ⟨1, 150⟩, -2⟩) = 0 ∧
    NonNullComp (none : Option Decimal) (some ⟨some ⟨2, 150⟩, -2⟩) = -1 ∧
    NonNullComp (some (7 : Int)) (some 7) = 0 := by
  decide

/-- C18: AnyToString of a pointer. For a value v of a type AnyToString accepts behind a
pointer, the pointer to v is rendered as v itself; the nil pointer is rendered as the empty
string for string, as "0" for every integer type and for float32 and float64, as "false" for
bool and as the quoted rendering of the zero time for time.Time; and true is rendered as
"true". -/
theorem AnyToString_pointer {τ δ : Type} [Inhabited τ]
    (fmtFloat : FloatKind → FloatVal → String) (fmtTime : τ → String) (v : GoVal τ δ)
    (hv : isPointee v.typeOf = true) (k : IntKind) :
    AnyToString fmtFloat fmtTime (some (GoVal.ptrTo v)) = AnyToString fmtFloat fmtTime (some v) ∧
    AnyToString fmtFloat fmtTime (some (GoVal.nilPtr GoType.string : GoVal τ δ)) = "" ∧
    AnyToString fmtFloat fmtTime (some (GoVal.nilPtr (GoType.int k) : GoVal τ δ)) = "0" ∧
    AnyToString fmtFloat fmtTime
      (some (GoVal.nilPtr (GoType.float FloatKind.float32) : GoVal τ δ)) = "0" ∧
    AnyToString fmtFloat fmtTime
      (some (GoVal.nilPtr (GoType.float FloatKind.float64) : GoVal τ δ)) = "0" ∧
    AnyToString fmtFloat fmtTime (some (GoVal.nilPtr GoType.bool : GoVal τ δ)) = "false" ∧
    AnyToString fmtFloat fmtTime (some (GoVal.nilPtr GoType.time : GoVal τ δ))
      = "\x27" ++ fmtTime default ++ "\x27" ∧
    AnyToString fmtFloat fmtTime (some (GoVal.bool true : GoVal τ δ)) = "true" := by
  refine ⟨?_, rfl, rfl, rfl, rfl, rfl, rfl, rfl⟩
  cases v with
  | str s => rfl
  | int k2 n => rfl
  | float f x => cases f <;> rfl
  | bool b => cases b <;> rfl
  | time t => rfl
  | decimal d => simp [GoVal.typeOf, isPointee] at hv
  | nilPtr e => simp [GoVal.typeOf, isPointee] at hv
  | ptrTo w => simp [GoVal.typeOf, isPointee] at hv
  | handle h n => simp [GoVal.typeOf, isPointee] at hv
  | struct n => simp [GoVal.typeOf, isPointee] at hv

/-- Witness of C18 on the pointer to the integer 42 of type int16, with the time.Parse model
dates as times. -/
theorem AnyToString_pointer_witness :
    AnyToString (fun _ _ => "") (fun _ : Date => "")
        (some (GoVal.ptrTo (GoVal.int IntKind.int16 42) : GoVal Date Unit))
      = AnyToString (fun _ _ => "") (fun _ : Date => "")
        (some (GoVal.int IntKind.int16 42 : GoVal Date Unit)) ∧
    AnyToString (fun _ _ => "") (fun _ : Date => "")
        (some (GoVal.int IntKind.int16 42 : GoVal Date Unit)) = "42" :=
  ⟨(AnyToString_pointer (fun _ _ => "") (fun _ : Date => "")
      (GoVal.int IntKind.int16 42 : GoVal Date Unit) rfl IntKind.int).1, by decide⟩

/-- C19: IsInterfaceNil is true exactly when the interface is nil or holds a nil pointer or a
nil map, slice or func; it is false for every pointer, map, slice or func that is not nil and
for every value of another type, such as a struct. -/
theorem IsInterfaceNil_iff {τ δ : Type} (i : Option (GoVal τ δ)) :
    (IsInterfaceNil i = true ↔
      i = none ∨ (∃ e, i = some (GoVal.nilPtr e)) ∨ (∃ k, i = some (GoVal.handle k true))) ∧
    IsInterfaceNil (none : Option (GoVal τ δ)) = true ∧
    IsInterfaceNil (some (GoVal.struct "iFaceImp" : GoVal τ δ)) = false := by
  refine ⟨?_, rfl, rfl⟩
  cases i with
  | none => simp [IsInterfaceNil]
  | some v =>
    cases v with
    | handle k n => cases n <;> simp [IsInterfaceNil, GoVal.typeOf, isRefKind, GoVal.isNil]
    | _ => simp [IsInterfaceNil, GoVal.typeOf, isRefKind, GoVal.isNil]

end StdUtil
